import Mathlib

-- Verification of the CampusVibe repository against its specification.
-- The data model and operations below are shallow embeddings of the
-- Python sources (src/app.py, src/ingest.py).  Components that live in
-- third-party libraries (the FAISS flat L2 index, the llama_index
-- splitter, reader and storage persistence) are modelled from the
-- specification, as marked in their doc comments.

namespace CampusVibe

/-- Failure taxonomy of the specification, section 7. -/
inductive Failure where
  | NoDataFailure : Failure
  | ConfigurationFailure : Failure
  | CorruptIndexFailure : Failure
deriving DecidableEq

-- ---------------------------------------------------------------------
-- Authentication (src/app.py, login_user, lines 38-42)
-- ---------------------------------------------------------------------

/-- A user document as stored in the users collection: optional name and
optional plaintext password field; dict.get returns none for a missing
field. -/
structure UserDoc where
  name : Option String
  password : Option String
deriving DecidableEq

/-- Embedding of login_user from src/app.py lines 38-42.  The database is
modelled as the find_one lookup keyed by the email used as the document id. -/
def login_user (db : String → Option UserDoc) (email pw : String) : Bool × String :=
  match db email with
  | none => (false, "User not found.")
  | some doc =>
    if doc.password = some pw then (true, doc.name.getD email)
    else (false, "Invalid password.")

-- ---------------------------------------------------------------------
-- Note feedback (src/app.py, submit_note_feedback, lines 75-82)
-- ---------------------------------------------------------------------

/-- A BSON id value: an ObjectId, a raw string, or some other value. -/
inductive BsonId where
  | oid (hex : String) : BsonId
  | str (s : String) : BsonId
  | other (n : Nat) : BsonId
deriving DecidableEq

/-- One feedback record pushed onto a note document. -/
structure FeedbackRec where
  user_email : String
  text : String
deriving DecidableEq

/-- A note document: its id and its feedback array. -/
structure Note where
  noteId : BsonId
  feedback : List FeedbackRec
deriving DecidableEq

/-- Whether a character is a hexadecimal digit. -/
def isHexChar (c : Char) : Bool :=
  (48 ≤ c.toNat && c.toNat ≤ 57) || (97 ≤ c.toNat && c.toNat ≤ 102) ||
    (65 ≤ c.toNat && c.toNat ≤ 70)

/-- The ObjectId constructor: succeeds exactly on 24-character hex strings,
raises InvalidId otherwise. -/
def toObjectId (s : String) : Except String BsonId :=
  if s.length = 24 ∧ s.toList.all isHexChar then .ok (.oid s)
  else .error "InvalidId"

/-- The target id computed on src/app.py line 79: a string of length 24 is
passed through the ObjectId constructor (which may raise), anything else is
used unchanged. -/
def resolveTargetId (note_id : BsonId) : Except String BsonId :=
  match note_id with
  | .str s => if s.length = 24 then toObjectId s else .ok (.str s)
  | i => .ok i

/-- update_one with a push modifier: appends the feedback record to the first
note whose id matches and reports the modified count (1 on a match, else 0). -/
def pushFeedback (fb : FeedbackRec) (target : BsonId) : List Note → Nat × List Note
  | [] => (0, [])
  | n :: ns =>
    if n.noteId = target then (1, { n with feedback := n.feedback ++ [fb] } :: ns)
    else
      let r := pushFeedback fb target ns
      (r.1, n :: r.2)

/-- Embedding of submit_note_feedback from src/app.py lines 75-82.  The
dbError flag models the update call itself raising (caught by the bare
except clause before any modification happens); the result pairs the
returned boolean with the notes collection after the call. -/
def submit_note_feedback (dbError : Bool) (notes : List Note) (note_id : BsonId)
    (user_email feedback_text : String) : Bool × List Note :=
  if feedback_text = "" then (false, notes)
  else
    match resolveTargetId note_id with
    | .error _ => (false, notes)
    | .ok target =>
      if dbError then (false, notes)
      else
        let r := pushFeedback { user_email := user_email, text := feedback_text } target notes
        (decide (0 < r.1), r.2)

-- ---------------------------------------------------------------------
-- Query engine availability and the chat handler (src/app.py 103-119, 266-286)
-- ---------------------------------------------------------------------

/-- Boolean test that a list of characters starts with the given characters. -/
def prefixEq : List Char → List Char → Bool
  | [], _ => true
  | _ :: _, [] => false
  | a :: as, b :: bs => a == b && prefixEq as bs

/-- Boolean substring containment on character lists, the Python in operator. -/
def occursIn (needle : List Char) : List Char → Bool
  | [] => prefixEq needle []
  | c :: cs => prefixEq needle (c :: cs) || occursIn needle cs

/-- The lowercased character sequence of a string, the Python lower call. -/
def lowerChars (s : String) : List Char := s.toList.map Char.toLower

/-- The transient-failure test on src/app.py line 281: the exception text
contains 503, or contains loading once lowercased. -/
def isTransient (e : String) : Bool :=
  occursIn ("503".toList) e.toList || occursIn ("loading".toList) (lowerChars e)

/-- What the chat handler displays for one user question: an answer, the
informational retry-shortly notice, or an error banner.  There is no
constructor for a propagated exception: the handler catches everything. -/
inductive ChatDisplay where
  | answer (s : String) : ChatDisplay
  | infoRetry (s : String) : ChatDisplay
  | errorMsg (s : String) : ChatDisplay
deriving DecidableEq

/-- Environment of the RAG initialisation in src/app.py: whether the LLM
instance was constructed, whether the storage directory exists, the outcome
of load_index_from_storage, and the query call of the resulting engine
(an error value models a raised exception). -/
structure AppEnv where
  llmAvailable : Bool
  storageDirExists : Bool
  loadResult : Except String Unit
  queryEngine : String → Except String String

/-- The offline banner shown on src/app.py line 286. -/
def offlineMsg : String := "AI engine is offline. Check sidebar for errors."

/-- The retry notice shown on src/app.py line 282. -/
def wakingMsg : String := "The AI is waking up! Please wait 30 seconds and click Enter again."

/-- Embedding of init_rag_engine from src/app.py lines 103-117: returns none
when the LLM is absent, when the storage directory is missing, or when
loading raises; otherwise returns the query engine. -/
def init_rag_engine (env : AppEnv) : Option (String → Except String String) :=
  if env.llmAvailable = false then none
  else if env.storageDirExists = false then none
  else
    match env.loadResult with
    | .ok _ => some env.queryEngine
    | .error _ => none

/-- Embedding of the assistant branch of the chat handler, src/app.py lines
270-286: no engine shows the offline banner; a successful query shows the
answer; a raised exception is caught and classified by isTransient. -/
def answer_chat (engine : Option (String → Except String String)) (p : String) : ChatDisplay :=
  match engine with
  | none => .errorMsg offlineMsg
  | some qf =>
    match qf p with
    | .ok resp => .answer resp
    | .error e =>
      if isTransient e then .infoRetry wakingMsg
      else .errorMsg ("AI Error: " ++ e)

-- ---------------------------------------------------------------------
-- Chunker (configured in src/ingest.py line 51; modelled from the spec)
-- ---------------------------------------------------------------------

/-- Modelled from the spec: the splitter itself (llama_index SentenceSplitter,
configured with chunk size 1024 and overlap 20 in src/ingest.py line 51) is
not part of this repository.  Section 4.1 of the spec admits a naive cut:
successive windows of at most s units whose starts advance by s - o units,
so that consecutive chunks share o units; empty text yields no chunks.
The first argument is recursion fuel, always instantiated with the text
length by chunkText below. -/
def chunkGo (s o : Nat) : Nat → List Char → List (List Char)
  | 0, _ => []
  | _ + 1, [] => []
  | fuel + 1, c :: cs =>
    if cs.length + 1 ≤ s then [c :: cs]
    else (c :: cs).take s :: chunkGo s o fuel ((c :: cs).drop (s - o))

/-- Modelled from the spec: the chunker of section 4.1 at maximum chunk
size s and overlap o. -/
def chunkText (s o : Nat) (t : List Char) : List (List Char) :=
  chunkGo s o t.length t

/-- Chunk size configured in src/ingest.py line 51. -/
def CHUNK_SIZE : Nat := 1024

/-- Chunk overlap configured in src/ingest.py line 51. -/
def CHUNK_OVERLAP : Nat := 20

/-- Splitting one document into chunk strings with the configured sizes. -/
def chunkDocument (t : String) : List String :=
  (chunkText CHUNK_SIZE CHUNK_OVERLAP t.toList).map (fun cs => String.mk cs)

-- ---------------------------------------------------------------------
-- Flat L2 vector index (faiss.IndexFlatL2, src/ingest.py line 39;
-- modelled from the spec)
-- ---------------------------------------------------------------------

/-- One stored row of the vector index: the chunk id and its embedding
vector.  Insertion order gives the row ids. -/
structure Entry where
  chunkId : Nat
  vec : List Int
deriving DecidableEq

/-- Squared L2 distance between two vectors of equal dimension. -/
def sqDist (q v : List Int) : Int :=
  ((q.zip v).map (fun p => (p.1 - p.2) * (p.1 - p.2))).sum

/-- Modelled from the spec: the search ordering of section 4.3, ascending by
L2 distance to the query with ties broken by insertion order (the row id
produced by enumeration). -/
def searchOrder (q : List Int) (a b : Nat × Entry) : Prop :=
  sqDist q a.2.vec < sqDist q b.2.vec ∨
    (sqDist q a.2.vec = sqDist q b.2.vec ∧ a.1 ≤ b.1)

instance (q : List Int) : DecidableRel (searchOrder q) := fun a b => by
  unfold searchOrder
  exact inferInstance

instance (q : List Int) : IsTotal (Nat × Entry) (searchOrder q) :=
  ⟨fun a b => by unfold searchOrder; omega⟩

instance (q : List Int) : IsTrans (Nat × Entry) (searchOrder q) :=
  ⟨fun a b c => by unfold searchOrder; omega⟩

/-- The stored rows tagged with their insertion-order row ids. -/
def rows (idx : List Entry) : List (Nat × Entry) := idx.enum

/-- The rows arranged ascending by distance, ties by insertion order. -/
def rankedRows (q : List Int) (idx : List Entry) : List (Nat × Entry) :=
  List.insertionSort (searchOrder q) (rows idx)

/-- Modelled from the spec: search of section 4.3 returns the k entries of
smallest L2 distance as chunk id and distance pairs, ascending by distance
with ties broken by insertion order. -/
def search (idx : List Entry) (q : List Int) (k : Nat) : List (Nat × Int) :=
  ((rankedRows q idx).take k).map (fun e => (e.2.chunkId, sqDist q e.2.vec))

-- ---------------------------------------------------------------------
-- Dimension discipline of add (spec section 4.3; the faiss index object
-- is not part of this repository)
-- ---------------------------------------------------------------------

/-- Dimensionality of the configured embedding model, src/ingest.py line 21. -/
def VECTOR_DIMENSION : Nat := 384

/-- The dimension established by the first insertion: the vector length of
the first stored entry, none while the index is empty. -/
def establishedDim (idx : List Entry) : Option Nat :=
  idx.head?.map (fun e => e.vec.length)

/-- Modelled from the spec: add of section 4.3 appends to the index and
fails with a configuration failure when the vector dimension differs from
the dimension established by the first insertion. -/
def addVec (idx : List Entry) (e : Entry) : Except Failure (List Entry) :=
  match idx with
  | [] => .ok [e]
  | e0 :: rest =>
    if e.vec.length = e0.vec.length then .ok ((e0 :: rest) ++ [e])
    else .error .ConfigurationFailure

/-- Inserting a sequence of entries one by one, stopping at the first
failure. -/
def addAll (idx : List Entry) : List Entry → Except Failure (List Entry)
  | [] => .ok idx
  | e :: es =>
    match addVec idx e with
    | .ok idx2 => addAll idx2 es
    | .error f => .error f

/-- All entries of an index agree on their vector dimension. -/
def AllSameDim (idx : List Entry) : Prop :=
  ∀ e ∈ idx, ∀ e2 ∈ idx, e.vec.length = e2.vec.length

-- ---------------------------------------------------------------------
-- Persistence (index.storage_context.persist, src/ingest.py line 73 and
-- load_index_from_storage, src/app.py line 112; modelled from the spec)
-- ---------------------------------------------------------------------

/-- The in-memory index bundle persisted by ingestion: dimension, vector
rows, the row-id to chunk-id mapping, and the chunk texts. -/
structure IndexBundle where
  dim : Nat
  vectors : List (List Int)
  chunkIds : List Nat
  chunkTexts : List String
deriving DecidableEq

/-- Modelled from the spec: the persisted directory of section 6 holds three
artifacts, each of which may be missing on disk, plus the recorded
dimension metadata. -/
structure StorageDir where
  vectorBlob : Option (List (List Int))
  idMapping : Option (List Nat)
  chunkMeta : Option (List String)
  recordedDim : Nat
deriving DecidableEq

/-- Modelled from the spec: persist of section 4.3 writes all three
artifacts and records the dimension. -/
def persist (b : IndexBundle) : StorageDir :=
  { vectorBlob := some b.vectors
    idMapping := some b.chunkIds
    chunkMeta := some b.chunkTexts
    recordedDim := b.dim }

/-- Modelled from the spec: load of section 4.3 fails with a corrupt-index
failure when any artifact is missing or when the recorded dimension
disagrees with the row width of the vector blob. -/
def load (d : StorageDir) : Except Failure IndexBundle :=
  match d.vectorBlob, d.idMapping, d.chunkMeta with
  | some vs, some ids, some ts =>
    if vs.all (fun v => v.length = d.recordedDim) then
      .ok { dim := d.recordedDim, vectors := vs, chunkIds := ids, chunkTexts := ts }
    else .error .CorruptIndexFailure
  | _, _, _ => .error .CorruptIndexFailure

-- ---------------------------------------------------------------------
-- Ingestion pipeline (src/ingest.py, create_or_update_index, lines 23-74)
-- ---------------------------------------------------------------------

/-- Environment of one ingestion run: whether the data directory exists,
the document texts found in it, and the (deterministic) embedding function
of the configured model. -/
structure IngestEnv where
  dataDirExists : Bool
  files : List String
  embed : String → List Int

/-- Outcome of one ingestion run: an early return with a printed report, a
completed run that persisted a bundle, or an exception escaping the
function uncaught. -/
inductive IngestOutcome where
  | reported (msg : String) : IngestOutcome
  | completed (b : IndexBundle) : IngestOutcome
  | raised (f : Failure) : IngestOutcome
deriving DecidableEq

/-- The message printed by src/ingest.py line 30 when the data directory is
missing. -/
def missingDirMsg : String := "Data directory not found. Please create it and add notes."

/-- Modelled from the spec: loading the documents of the source directory
(SimpleDirectoryReader, src/ingest.py line 34, not part of this repository)
fails with a no-data failure when no files are found. -/
def loadData (files : List String) : Except Failure (List String) :=
  if files.isEmpty then .error .NoDataFailure else .ok files

/-- The ingestion pipeline body of src/ingest.py lines 49-68: split every
document into chunks, embed every chunk, and assemble the fresh index
bundle whose row ids are the insertion order. -/
def runPipeline (embed : String → List Int) (docs : List String) : IndexBundle :=
  let chunks := (docs.map chunkDocument).flatten
  { dim := VECTOR_DIMENSION
    vectors := chunks.map embed
    chunkIds := List.range chunks.length
    chunkTexts := chunks }

/-- Embedding of create_or_update_index from src/ingest.py lines 23-74 as a
function of the run environment and the previously persisted storage: a
missing data directory prints a report and returns early; document loading
raises uncaught when the directory is empty; otherwise the pipeline runs
and its bundle replaces the persisted storage wholesale. -/
def create_or_update_index (env : IngestEnv) (prior : Option IndexBundle) :
    IngestOutcome × Option IndexBundle :=
  if env.dataDirExists = false then (.reported missingDirMsg, prior)
  else
    match loadData env.files with
    | .error f => (.raised f, prior)
    | .ok docs =>
      let b := runPipeline env.embed docs
      (.completed b, some b)

/-- Whether an ingestion outcome is a non-fatal report (an early return with
a printed message, as opposed to a completed run or an uncaught exception). -/
def reportsNonFatal (o : IngestOutcome) : Bool :=
  match o with
  | .reported _ => true
  | _ => false

-- ---------------------------------------------------------------------
-- Concrete fixtures used by witnesses and counterexamples
-- ---------------------------------------------------------------------

/-- Fixture: a stored user document. -/
def docW : UserDoc := { name := some "Alice", password := some "pw1" }

/-- Fixture: a users collection with one document. -/
def dbW : String → Option UserDoc := fun em => if em = "a@b.c" then some docW else none

/-- Fixture: one note with no feedback yet. -/
def noteW : Note := { noteId := .other 1, feedback := [] }

/-- Fixture: a notes collection with one note. -/
def notesW : List Note := [noteW]

/-- Fixture: a query engine whose query call raises a transient-looking
exception. -/
def qfTransient : String → Except String String := fun _ => .error "503 Service Unavailable"

/-- Fixture: a query engine whose query call raises a hard exception. -/
def qfHard : String → Except String String := fun _ => .error "boom"

/-- Fixture: an app environment with the LLM ready but no storage
directory. -/
def envNoStorage : AppEnv :=
  { llmAvailable := true
    storageDirExists := false
    loadResult := .ok ()
    queryEngine := fun _ => .ok "hi" }

/-- Fixture: a deterministic stand-in embedding function. -/
def embedW : String → List Int := fun s => [Int.ofNat s.length, 1]

/-- Fixture: an ingestion environment whose data directory exists but holds
no files. -/
def envIngEmpty : IngestEnv := { dataDirExists := true, files := [], embed := embedW }

/-- Fixture: an ingestion environment whose data directory is missing. -/
def envIngMissing : IngestEnv := { dataDirExists := false, files := [], embed := embedW }

/-- Fixture: an ingestion environment with one document. -/
def envIngOk : IngestEnv := { dataDirExists := true, files := ["hello world"], embed := embedW }

/-- Fixture: a small well-formed index bundle. -/
def bundleW : IndexBundle :=
  { dim := 2, vectors := [[1, 2], [3, 4]], chunkIds := [0, 1], chunkTexts := ["a", "b"] }

/-- Fixture: a small index of three stored entries. -/
def entriesW : List Entry := [⟨10, [0, 0]⟩, ⟨11, [3, 4]⟩, ⟨12, [0, 0]⟩]

/-- Fixture: two entries of equal dimension, inserted in order. -/
def esW : List Entry := [⟨0, [1, 2]⟩, ⟨1, [3, 4]⟩]

/-- Fixture: a storage directory whose vector blob is missing. -/
def sdMissingBlob : StorageDir :=
  { vectorBlob := none, idMapping := some [0], chunkMeta := some ["a"], recordedDim := 2 }

/-- Fixture: a storage directory whose recorded dimension disagrees with the
row width of its vector blob. -/
def sdBadDim : StorageDir :=
  { vectorBlob := some [[1, 2, 3]], idMapping := some [0], chunkMeta := some ["a"],
    recordedDim := 2 }

/-- Fixture: the eight-character text of the spec scenario in section 8. -/
def textW : List Char := ['A', 'B', 'C', 'D', 'E', 'F', 'G', 'H']

-- ---------------------------------------------------------------------
-- Theorems
-- ---------------------------------------------------------------------

/-- C9: login_user succeeds exactly when a user document stored under the
email exists and its plaintext password field is string-equal to the
supplied password; on success it returns the stored name defaulting to the
email, and the failure messages for a missing user and for a wrong password
are distinct. -/
theorem login_user_spec (db : String → Option UserDoc) (email pw : String) :
    ((login_user db email pw).1 = true ↔
      ∃ doc, db email = some doc ∧ doc.password = some pw) ∧
    (∀ doc, db email = some doc → doc.password = some pw →
      login_user db email pw = (true, doc.name.getD email)) ∧
    (db email = none → login_user db email pw = (false, "User not found.")) ∧
    (∀ doc, db email = some doc → doc.password ≠ some pw →
      login_user db email pw = (false, "Invalid password.")) ∧
    ("User not found." : String) ≠ "Invalid password." := by
  refine ⟨?_, ?_, ?_, ?_, by decide⟩
  · unfold login_user
    cases h : db email with
    | none => simp
    | some doc =>
      by_cases hp : doc.password = some pw <;> simp [hp]
  · intro doc h hp
    simp [login_user, h, hp]
  · intro h
    simp [login_user, h]
  · intro doc h hp
    simp [login_user, h, hp]

/-- Witness for login_user_spec at a concrete user store. -/
theorem login_user_spec_witness :
    login_user dbW "a@b.c" "pw1" = (true, "Alice") ∧
    login_user dbW "x@y.z" "p" = (false, "User not found.") :=
  ⟨(login_user_spec dbW "a@b.c" "pw1").2.1 docW rfl rfl,
   (login_user_spec dbW "x@y.z" "p").2.2.1 rfl⟩

/-- Pushing a feedback record at a target id that matches no note reports a
modified count of zero and leaves the collection unchanged. -/
theorem pushFeedback_no_match (fb : FeedbackRec) (t : BsonId) :
    ∀ notes : List Note, (∀ n ∈ notes, n.noteId ≠ t) →
      pushFeedback fb t notes = (0, notes)
  | [] => fun _ => rfl
  | n :: ns => fun h => by
    have hn : n.noteId ≠ t := h n (by simp)
    have hrec := pushFeedback_no_match fb t ns (fun m hm => h m (by simp [hm]))
    simp only [pushFeedback, if_neg hn, hrec]

/-- Pushing a feedback record leaves the collection unchanged exactly when
the reported modified count is zero. -/
theorem pushFeedback_unchanged_iff (fb : FeedbackRec) (t : BsonId) :
    ∀ notes : List Note,
      ((pushFeedback fb t notes).2 = notes ↔ (pushFeedback fb t notes).1 = 0)
  | [] => by simp [pushFeedback]
  | n :: ns => by
    by_cases h : n.noteId = t
    · simp only [pushFeedback, if_pos h]
      constructor
      · intro he
        have h2 := (List.cons.injEq _ _ _ _).mp he
        have h3 := congrArg Note.feedback h2.1
        simp at h3
      · intro h1
        exact absurd h1 one_ne_zero
    · simp only [pushFeedback, if_neg h, List.cons.injEq, true_and]
      exact pushFeedback_unchanged_iff fb t ns

/-- C10: submit_note_feedback returns true exactly when the notes collection
was modified; an empty feedback text returns false with no write, a raised
database call returns false rather than propagating, and a target id that
matches no note returns false. -/
theorem submit_note_feedback_spec (dbError : Bool) (notes : List Note) (nid : BsonId)
    (em fb : String) :
    ((submit_note_feedback dbError notes nid em fb).1 = true ↔
      (submit_note_feedback dbError notes nid em fb).2 ≠ notes) ∧
    (fb = "" → submit_note_feedback dbError notes nid em fb = (false, notes)) ∧
    (dbError = true → submit_note_feedback dbError notes nid em fb = (false, notes)) ∧
    (∀ tid, resolveTargetId nid = .ok tid → (∀ n ∈ notes, n.noteId ≠ tid) →
      submit_note_feedback dbError notes nid em fb = (false, notes)) := by
  refine ⟨?_, ?_, ?_, ?_⟩
  · unfold submit_note_feedback
    by_cases hf : fb = ""
    · simp [hf]
    · rw [if_neg hf]
      cases hr : resolveTargetId nid with
      | error e => simp
      | ok target =>
        by_cases hd : dbError
        · simp [hd]
        · simp only [if_neg hd]
          have h := pushFeedback_unchanged_iff ⟨em, fb⟩ target notes
          constructor
          · intro h1 h2
            have h0 := h.mp h2
            rw [h0] at h1
            simp at h1
          · intro h2
            have h3 : (pushFeedback ⟨em, fb⟩ target notes).1 ≠ 0 :=
              fun h0 => h2 (h.mpr h0)
            simp only [decide_eq_true_eq]
            omega
  · intro hf
    unfold submit_note_feedback
    rw [if_pos hf]
  · intro hd
    unfold submit_note_feedback
    by_cases hf : fb = ""
    · rw [if_pos hf]
    · rw [if_neg hf]
      cases hr : resolveTargetId nid with
      | error e => rfl
      | ok target => simp [hd]
  · intro tid htid hnone
    unfold submit_note_feedback
    by_cases hf : fb = ""
    · rw [if_pos hf]
    · rw [if_neg hf, htid]
      by_cases hd : dbError
      · simp [hd]
      · simp only [if_neg hd]
        rw [pushFeedback_no_match ⟨em, fb⟩ tid notes hnone]
        rfl

/-- Witness for submit_note_feedback_spec: empty feedback, a raised database
call, and an unmatched id each yield false with the collection unchanged. -/
theorem submit_note_feedback_spec_witness :
    submit_note_feedback false notesW (.other 1) "a@b.c" "" = (false, notesW) ∧
    submit_note_feedback true notesW (.other 1) "a@b.c" "hi" = (false, notesW) ∧
    submit_note_feedback false notesW (.other 2) "a@b.c" "hi" = (false, notesW) :=
  ⟨(submit_note_feedback_spec false notesW (.other 1) "a@b.c" "").2.1 rfl,
   (submit_note_feedback_spec true notesW (.other 1) "a@b.c" "hi").2.2.1 rfl,
   (submit_note_feedback_spec false notesW (.other 2) "a@b.c" "hi").2.2.2
     (.other 2) rfl (by decide)⟩

/-- C6: a query-time failure never propagates to the caller: a missing
storage directory makes the engine unavailable and the chat shows the
offline banner, a raised query exception is caught and shown as a retry
notice or an error banner, and every invocation of the chat handler yields
one of the three display forms. -/
theorem query_failures_degrade (env : AppEnv) (p : String) :
    (env.storageDirExists = false →
      init_rag_engine env = none ∧
        answer_chat (init_rag_engine env) p = .errorMsg offlineMsg) ∧
    (∀ qf e, qf p = Except.error e →
      answer_chat (some qf) p = .infoRetry wakingMsg ∨
        answer_chat (some qf) p = .errorMsg ("AI Error: " ++ e)) ∧
    (∀ engine, (∃ s, answer_chat engine p = .answer s) ∨
      (∃ s, answer_chat engine p = .infoRetry s) ∨
        (∃ s, answer_chat engine p = .errorMsg s)) := by
  refine ⟨?_, ?_, ?_⟩
  · intro h
    have hnone : init_rag_engine env = none := by
      unfold init_rag_engine
      cases hl : env.llmAvailable <;> simp [h]
    exact ⟨hnone, by rw [hnone]; rfl⟩
  · intro qf e he
    by_cases ht : isTransient e <;> simp [answer_chat, he, ht]
  · intro engine
    cases engine with
    | none => exact Or.inr (Or.inr ⟨offlineMsg, rfl⟩)
    | some qf =>
      cases hq : qf p with
      | ok s => exact Or.inl ⟨s, by simp [answer_chat, hq]⟩
      | error e =>
        by_cases ht : isTransient e
        · exact Or.inr (Or.inl ⟨wakingMsg, by simp [answer_chat, hq, ht]⟩)
        · exact Or.inr (Or.inr ⟨"AI Error: " ++ e, by simp [answer_chat, hq, ht]⟩)

/-- Witness for query_failures_degrade at a concrete environment with no
storage directory and at a concrete hard query failure. -/
theorem query_failures_degrade_witness :
    answer_chat (init_rag_engine envNoStorage) "q" = .errorMsg offlineMsg ∧
    (answer_chat (some qfHard) "q" = .infoRetry wakingMsg ∨
      answer_chat (some qfHard) "q" = .errorMsg ("AI Error: " ++ "boom")) :=
  ⟨((query_failures_degrade envNoStorage "q").1 rfl).2,
   (query_failures_degrade envNoStorage "q").2.1 qfHard "boom" rfl⟩

/-- C7: when the query call raises, the handler distinguishes a
transient-looking failure (exception text containing 503, or containing
loading once lowercased) shown as the retry-shortly notice from a hard
failure shown as an error banner. -/
theorem transient_vs_hard (qf : String → Except String String) (p e : String)
    (h : qf p = Except.error e) :
    (isTransient e = true → answer_chat (some qf) p = .infoRetry wakingMsg) ∧
    (isTransient e = false → answer_chat (some qf) p = .errorMsg ("AI Error: " ++ e)) ∧
    isTransient e =
      (occursIn ("503".toList) e.toList || occursIn ("loading".toList) (lowerChars e)) := by
  refine ⟨?_, ?_, rfl⟩ <;> intro ht <;> simp [answer_chat, h, ht]

/-- Witness for transient_vs_hard: a 503 failure yields the retry notice and
a plain failure yields the error banner. -/
theorem transient_vs_hard_witness :
    answer_chat (some qfTransient) "q" = .infoRetry wakingMsg ∧
    answer_chat (some qfHard) "q" = .errorMsg ("AI Error: " ++ "boom") :=
  ⟨(transient_vs_hard qfTransient "q" "503 Service Unavailable" rfl).1 (by decide),
   (transient_vs_hard qfHard "q" "boom" rfl).2.1 (by decide)⟩

/-- C3: loading the directory persisted from a non-empty well-formed index
bundle recovers the same bundle, and load fails with the corrupt-index
failure when any of the three artifacts is missing or when some row of the
vector blob disagrees with the recorded dimension. -/
theorem persist_load_roundtrip (b : IndexBundle) (hne : b.vectors ≠ [])
    (hdim : ∀ v ∈ b.vectors, v.length = b.dim) :
    load (persist b) = .ok b ∧
    (∀ d : StorageDir, d.vectorBlob = none → load d = .error .CorruptIndexFailure) ∧
    (∀ d : StorageDir, d.idMapping = none → load d = .error .CorruptIndexFailure) ∧
    (∀ d : StorageDir, d.chunkMeta = none → load d = .error .CorruptIndexFailure) ∧
    (∀ (d : StorageDir) (vs : List (List Int)) (v : List Int), d.vectorBlob = some vs →
      v ∈ vs → v.length ≠ d.recordedDim → load d = .error .CorruptIndexFailure) := by
  refine ⟨?_, ?_, ?_, ?_, ?_⟩
  · have hall : b.vectors.all (fun v => decide (v.length = b.dim)) = true := by
      rw [List.all_eq_true]
      intro v hv
      simpa using hdim v hv
    obtain ⟨dm, vecs, ids, txts⟩ := b
    simp only [persist, load]
    simp only at hall
    rw [if_pos hall]
  · intro d h
    obtain ⟨vb, im, cm, rd⟩ := d
    simp only at h
    subst h
    simp [load]
  · intro d h
    obtain ⟨vb, im, cm, rd⟩ := d
    simp only at h
    subst h
    cases vb <;> simp [load]
  · intro d h
    obtain ⟨vb, im, cm, rd⟩ := d
    simp only at h
    subst h
    cases vb <;> cases im <;> simp [load]
  · intro d vs v hvb hv hnd
    obtain ⟨vb, im, cm, rd⟩ := d
    simp only at hvb hnd
    subst hvb
    cases im with
    | none => simp [load]
    | some ids =>
      cases cm with
      | none => simp [load]
      | some txts =>
        simp only [load]
        rw [if_neg]
        intro hall
        rw [List.all_eq_true] at hall
        exact hnd (by simpa using hall v hv)

/-- Witness for persist_load_roundtrip at a concrete bundle, a directory
with a missing blob, and a directory with a mismatched dimension. -/
theorem persist_load_roundtrip_witness :
    load (persist bundleW) = .ok bundleW ∧
    load sdMissingBlob = .error .CorruptIndexFailure ∧
    load sdBadDim = .error .CorruptIndexFailure :=
  ⟨(persist_load_roundtrip bundleW (by decide) (by decide)).1,
   (persist_load_roundtrip bundleW (by decide) (by decide)).2.1 sdMissingBlob rfl,
   (persist_load_roundtrip bundleW (by decide) (by decide)).2.2.2.2 sdBadDim
     [[1, 2, 3]] [1, 2, 3] rfl (by decide) (by decide)⟩

/-- A successful add preserves agreement of all stored dimensions. -/
theorem addVec_preserves (idx : List Entry) (e : Entry) (idx2 : List Entry)
    (h : AllSameDim idx) (ha : addVec idx e = .ok idx2) : AllSameDim idx2 := by
  cases idx with
  | nil =>
    simp [addVec] at ha
    subst ha
    intro x hx y hy
    simp at hx hy
    subst hx
    subst hy
    rfl
  | cons e0 rest =>
    by_cases hd : e.vec.length = e0.vec.length
    · simp only [addVec, if_pos hd, Except.ok.injEq] at ha
      subst ha
      intro x hx y hy
      rcases List.mem_append.mp hx with hx2 | hx2 <;>
        rcases List.mem_append.mp hy with hy2 | hy2
      · exact h x hx2 y hy2
      · have hye : y = e := by simpa using hy2
        subst hye
        have := h x hx2 e0 (by simp)
        omega
      · have hxe : x = e := by simpa using hx2
        subst hxe
        have := h y hy2 e0 (by simp)
        omega
      · have hxe : x = e := by simpa using hx2
        have hye : y = e := by simpa using hy2
        subst hxe
        subst hye
        rfl
    · simp [addVec, hd] at ha

/-- A successful sequence of adds starting from an index of agreeing
dimensions yields an index of agreeing dimensions. -/
theorem addAll_preserves :
    ∀ (es idx idx2 : List Entry), AllSameDim idx → addAll idx es = .ok idx2 →
      AllSameDim idx2
  | [], idx, idx2, h, ha => by
    simp only [addAll, Except.ok.injEq] at ha
    subst ha
    exact h
  | e :: es, idx, idx2, h, ha => by
    cases hv : addVec idx e with
    | ok idxm =>
      exact addAll_preserves es idxm idx2 (addVec_preserves idx e idxm h hv)
        (by simpa [addAll, hv] using ha)
    | error f => simp [addAll, hv] at ha

/-- C4: an index built by successive adds from empty has every stored vector
at the dimension established by the first insertion, adding a vector of a
different dimension to a non-empty index fails with the configuration
failure, and the configured model dimension is 384. -/
theorem dimension_invariant (es idx : List Entry) (h : addAll [] es = .ok idx) :
    (∀ e ∈ idx, some e.vec.length = establishedDim idx) ∧
    (∀ (idx2 : List Entry) (e : Entry), idx2 ≠ [] →
      some e.vec.length ≠ establishedDim idx2 →
      addVec idx2 e = .error .ConfigurationFailure) ∧
    VECTOR_DIMENSION = 384 := by
  refine ⟨?_, ?_, rfl⟩
  · have hall : AllSameDim idx :=
      addAll_preserves es [] idx (by intro x hx; exact absurd hx (List.not_mem_nil x)) h
    intro e he
    cases hidx : idx with
    | nil =>
      rw [hidx] at he
      exact absurd he (List.not_mem_nil e)
    | cons e0 rest =>
      subst hidx
      have := hall e he e0 (by simp)
      simp [establishedDim, this]
  · intro idx2 e hne hdim
    cases idx2 with
    | nil => exact absurd rfl hne
    | cons e0 rest =>
      have hd : e.vec.length ≠ e0.vec.length := by
        intro hq
        exact hdim (by simp [establishedDim, hq])
      simp [addVec, hd]

/-- Witness for dimension_invariant at a concrete two-entry build and a
concrete mismatched add. -/
theorem dimension_invariant_witness :
    some (Entry.vec ⟨0, [1, 2]⟩).length = establishedDim esW ∧
    addVec esW ⟨2, [1, 2, 3]⟩ = .error .ConfigurationFailure :=
  ⟨(dimension_invariant esW esW rfl).1 ⟨0, [1, 2]⟩ (by decide),
   (dimension_invariant esW esW rfl).2.1 esW ⟨2, [1, 2, 3]⟩ (by decide) (by decide)⟩

/-- C5 counterexample: on a source directory that exists but holds no files,
the ingestion run does not report a non-fatal condition; the no-data failure
raised while loading documents escapes create_or_update_index uncaught. -/
theorem ingest_empty_dir_counterexample :
    reportsNonFatal (create_or_update_index envIngEmpty none).1 = false ∧
    (create_or_update_index envIngEmpty none).1 = .raised .NoDataFailure := by
  constructor <;> rfl

/-- C5 (amended): a missing source directory is reported with a printed
message and the run returns without touching the persisted storage; an
existing but empty source directory makes the run raise the no-data failure
uncaught, also without touching the persisted storage. -/
theorem ingest_no_data_amended (env : IngestEnv) (prior : Option IndexBundle) :
    (env.dataDirExists = false →
      create_or_update_index env prior = (.reported missingDirMsg, prior)) ∧
    (env.dataDirExists = true → env.files = [] →
      create_or_update_index env prior = (.raised .NoDataFailure, prior)) := by
  constructor
  · intro h
    simp [create_or_update_index, h]
  · intro h hf
    simp [create_or_update_index, h, loadData, hf]

/-- Witness for ingest_no_data_amended at a missing directory and at an
empty directory. -/
theorem ingest_no_data_amended_witness :
    create_or_update_index envIngMissing none = (.reported missingDirMsg, none) ∧
    create_or_update_index envIngEmpty none = (.raised .NoDataFailure, none) :=
  ⟨(ingest_no_data_amended envIngMissing none).1 rfl,
   (ingest_no_data_amended envIngEmpty none).2 rfl rfl⟩

/-- C8: the outcome of an ingestion run does not depend on the previously
persisted storage, and on a successful run any two runs over the same
environment produce one and the same fresh bundle, which wholly replaces
the stored one. -/
theorem idempotent_rebuild (env : IngestEnv) (st0 st1 : Option IndexBundle) :
    (create_or_update_index env st0).1 = (create_or_update_index env st1).1 ∧
    (env.dataDirExists = true → env.files ≠ [] →
      ∃ b, create_or_update_index env st0 = (.completed b, some b) ∧
        create_or_update_index env st1 = (.completed b, some b)) := by
  constructor
  · by_cases h : env.dataDirExists = false
    · simp [create_or_update_index, h]
    · simp only [create_or_update_index, if_neg h]
      cases hl : loadData env.files <;> simp
  · intro h hf
    have he : env.files.isEmpty = false := by
      cases hc : env.files with
      | nil => exact absurd hc hf
      | cons a as => rfl
    have hl : loadData env.files = .ok env.files := by
      simp [loadData, he]
    refine ⟨runPipeline env.embed env.files, ?_, ?_⟩ <;>
      simp [create_or_update_index, h, hl]

/-- Witness for idempotent_rebuild: two runs over the same one-document
environment from different prior storages agree on outcome and storage. -/
theorem idempotent_rebuild_witness :
    (create_or_update_index envIngOk none).1 =
      (create_or_update_index envIngOk (some bundleW)).1 ∧
    (create_or_update_index envIngOk none).2 =
      (create_or_update_index envIngOk (some bundleW)).2 := by
  refine ⟨(idempotent_rebuild envIngOk none (some bundleW)).1, ?_⟩
  obtain ⟨b, h1, h2⟩ := (idempotent_rebuild envIngOk none (some bundleW)).2 rfl (by decide)
  rw [h1, h2]

/-- The number of chunks produced with sufficient fuel is the ceiling of
(length - o) / (s - o). -/
theorem chunkGo_length (s o : Nat) (h : o < s) :
    ∀ (fuel : Nat) (t : List Char), t.length ≤ fuel → o < t.length →
      (chunkGo s o fuel t).length = (t.length - o + (s - o - 1)) / (s - o)
  | 0, t, hf, ht => by omega
  | fuel + 1, [], hf, ht => by simp at ht
  | fuel + 1, c :: cs, hf, ht => by
    simp only [List.length_cons] at hf ht ⊢
    by_cases hle : cs.length + 1 ≤ s
    · simp only [chunkGo, if_pos hle, List.length_singleton]
      have hnum : cs.length + 1 - o + (s - o - 1) =
          (cs.length + 1 - o + (s - o - 1) - (s - o)) + (s - o) := by omega
      rw [hnum, Nat.add_div_right _ (by omega), Nat.div_eq_of_lt (by omega)]
    · simp only [chunkGo, if_neg hle, List.length_cons]
      have hlen : ((c :: cs).drop (s - o)).length = cs.length + 1 - (s - o) := by
        simp [List.length_drop]
      have IH := chunkGo_length s o h fuel ((c :: cs).drop (s - o))
        (by rw [hlen]; omega) (by rw [hlen]; omega)
      rw [IH, hlen]
      have hnum : cs.length + 1 - o + (s - o - 1) =
          (cs.length + 1 - (s - o) - o + (s - o - 1)) + (s - o) := by omega
      rw [hnum, Nat.add_div_right _ (by omega)]

/-- Every chunk produced has at most s units. -/
theorem chunkGo_sizes (s o : Nat) :
    ∀ (fuel : Nat) (t : List Char), ∀ c ∈ chunkGo s o fuel t, c.length ≤ s
  | 0, t => by simp [chunkGo]
  | fuel + 1, [] => by simp [chunkGo]
  | fuel + 1, c :: cs => by
    by_cases hle : cs.length + 1 ≤ s
    · simp only [chunkGo, if_pos hle]
      intro x hx
      rw [List.mem_singleton.mp hx]
      simp only [List.length_cons]
      exact hle
    · simp only [chunkGo, if_neg hle]
      intro x hx
      rcases List.mem_cons.mp hx with hx2 | hx2
      · rw [hx2]
        simp
      · exact chunkGo_sizes s o fuel _ x hx2

/-- With sufficient fuel a nonempty text yields a first chunk whose leading
o units are the leading o units of the text. -/
theorem chunkGo_head (s o : Nat) (ho : o ≤ s) :
    ∀ (fuel : Nat) (t : List Char), t ≠ [] → t.length ≤ fuel →
      ∃ b rest2, chunkGo s o fuel t = b :: rest2 ∧ b.take o = t.take o
  | 0, t, hne, hf => by
    cases t with
    | nil => exact absurd rfl hne
    | cons c cs => simp at hf
  | fuel + 1, [], hne, hf => absurd rfl hne
  | fuel + 1, c :: cs, hne, hf => by
    by_cases hle : cs.length + 1 ≤ s
    · exact ⟨c :: cs, [], by simp [chunkGo, hle], rfl⟩
    · refine ⟨(c :: cs).take s, chunkGo s o fuel ((c :: cs).drop (s - o)),
        by simp [chunkGo, hle], ?_⟩
      rw [List.take_take, min_eq_left ho]

/-- Every pair of consecutive chunks overlaps in exactly o units: the
trailing o units of the former equal the leading o units of the latter. -/
theorem chunkGo_chain (s o : Nat) (h : o < s) :
    ∀ (fuel : Nat) (t : List Char), t.length ≤ fuel →
      List.Chain' (fun a b => a.drop (a.length - o) = b.take o) (chunkGo s o fuel t)
  | 0, t, hf => by simp [chunkGo]
  | fuel + 1, [], hf => by simp [chunkGo]
  | fuel + 1, c :: cs, hf => by
    simp only [List.length_cons] at hf
    by_cases hle : cs.length + 1 ≤ s
    · simp [chunkGo, hle]
    · simp only [chunkGo, if_neg hle]
      have hlen : ((c :: cs).drop (s - o)).length = cs.length + 1 - (s - o) := by
        simp [List.length_drop]
      have hne : (c :: cs).drop (s - o) ≠ [] := by
        intro hq
        have h2 := congrArg List.length hq
        rw [hlen] at h2
        simp only [List.length_nil] at h2
        omega
      obtain ⟨b, rest2, heq, hb⟩ := chunkGo_head s o (le_of_lt h) fuel
        ((c :: cs).drop (s - o)) hne (by rw [hlen]; omega)
      rw [heq, List.chain'_cons]
      constructor
      · have htk : ((c :: cs).take s).length = s := by
          rw [List.length_take]
          simp only [List.length_cons]
          omega
        rw [htk, List.drop_take, hb]
        have hso : s - (s - o) = o := by omega
        rw [hso]
      · rw [← heq]
        exact chunkGo_chain s o h fuel _ (by rw [hlen]; omega)

/-- C2: for overlap o smaller than the maximum chunk size s and a text
longer than o units, the chunker yields exactly the ceiling of
(length - o) / (s - o) chunks, every chunk has at most s units, and for
every pair of consecutive chunks the trailing o units of the former equal
the leading o units of the latter. -/
theorem chunker_spec (s o : Nat) (t : List Char) (h1 : o < s) (h2 : o < t.length) :
    (chunkText s o t).length = (t.length - o + (s - o - 1)) / (s - o) ∧
    (∀ c ∈ chunkText s o t, c.length ≤ s) ∧
    List.Chain' (fun a b => a.drop (a.length - o) = b.take o) (chunkText s o t) := by
  unfold chunkText
  exact ⟨chunkGo_length s o h1 t.length t le_rfl h2,
    chunkGo_sizes s o t.length t,
    chunkGo_chain s o h1 t.length t le_rfl⟩

/-- Witness for chunker_spec: the eight-unit scenario text of spec section 8
with chunk size 4 and overlap 1 yields exactly 3 chunks. -/
theorem chunker_spec_witness : (chunkText 4 1 textW).length = 3 := by
  rw [(chunker_spec 4 1 textW (by decide) (by decide)).1]
  decide

/-- C1: with k at most the index size, search returns exactly k results,
namely the first k rows of a ranking of the stored rows that is a
permutation of them sorted ascending by squared L2 distance with ties
broken by insertion order, every ranked row that is returned precedes in
that order every row that is not returned, and search on an empty index
returns the empty sequence for every query and every k. -/
theorem search_spec (idx : List Entry) (q : List Int) (k : Nat) (hk : k ≤ idx.length) :
    (search idx q k).length = k ∧
    (rankedRows q idx).Perm (rows idx) ∧
    List.Sorted (searchOrder q) (rankedRows q idx) ∧
    (∀ a ∈ (rankedRows q idx).take k, ∀ b ∈ (rankedRows q idx).drop k,
      searchOrder q a b) ∧
    search idx q k =
      ((rankedRows q idx).take k).map (fun e => (e.2.chunkId, sqDist q e.2.vec)) ∧
    (∀ (q2 : List Int) (k2 : Nat), search [] q2 k2 = []) := by
  have hperm : (rankedRows q idx).Perm (rows idx) :=
    List.perm_insertionSort (searchOrder q) (rows idx)
  have hsort : List.Sorted (searchOrder q) (rankedRows q idx) :=
    List.sorted_insertionSort (searchOrder q) (rows idx)
  have hlenr : (rankedRows q idx).length = idx.length := by
    rw [hperm.length_eq]
    simp [rows]
  refine ⟨?_, hperm, hsort, ?_, rfl, ?_⟩
  · simp only [search, List.length_map, List.length_take]
    omega
  · intro a ha b hb
    have hp : List.Pairwise (searchOrder q) (rankedRows q idx) := hsort
    rw [← List.take_append_drop k (rankedRows q idx)] at hp
    exact (List.pairwise_append.mp hp).2.2 a ha b hb
  · intro q2 k2
    simp [search, rankedRows, rows, List.insertionSort]

/-- Witness for search_spec at a concrete three-entry index and for the
empty index. -/
theorem search_spec_witness :
    (search entriesW [0, 0] 2).length = 2 ∧ search [] [0, 0] 5 = [] := by
  have h := search_spec entriesW [0, 0] 2 (by decide)
  exact ⟨h.1, h.2.2.2.2.2 [0, 0] 5⟩

end CampusVibe
